import Mathlib

/-!
Verification of the authentication-agent session engine (`src/agent.rs`,
`src/authority.rs`) against its specification.

The embedding models the Rust source shallowly:
* pure functions (`parse_helper_line`, `parse_username_from_passwd`) become
  Lean functions over `String`; the Rust string primitives (`strip_prefix`,
  `trim`, `split`, `lines`, `str::parse::<u32>`) are embedded as structural
  functions over the character list `String.data`, so every definition is
  executable by the kernel;
* the environment of effectful code (channel polls, subprocess spawn/write
  results, remote-call outcomes, environment variables, file reads) is
  passed in explicitly as oracle data, and the code's observable effects
  (lines written to the helper, signals sent to the UI, whether
  `kill_helper` ran) are returned as an explicit trace;
* a loop consumes one oracle record per iteration; exhausting the oracle
  means "still running" (`none`), never a fabricated outcome.
-/

/- ## String primitives over `List Char` -/

/-- Rust `str::starts_with` / the prefix test inside `strip_prefix`. -/
def strStartsWith (s p : String) : Bool :=
  p.data.isPrefixOf s.data

/-- Remainder after a prefix: what Rust `strip_prefix` returns when the
prefix test succeeds. -/
def strDropPrefix (s p : String) : String :=
  String.mk (s.data.drop p.data.length)

/-- Rust `str::trim`: remove leading and trailing whitespace. -/
def strTrim (s : String) : String :=
  String.mk (((s.data.dropWhile Char.isWhitespace).reverse.dropWhile
    Char.isWhitespace).reverse)

/-- Split a character list at every occurrence of `sep`; always returns at
least one (possibly empty) segment, like Rust `str::split`. -/
def splitChars (sep : Char) : List Char → List (List Char)
  | [] => [[]]
  | c :: cs =>
    let r := splitChars sep cs
    if c = sep then [] :: r
    else
      match r with
      | [] => [[c]]
      | seg :: rest => (c :: seg) :: rest

/-- Rust `str::split(sep)` producing `String` fields. -/
def splitFields (sep : Char) (s : String) : List String :=
  (splitChars sep s.data).map String.mk

/-- Rust `str::lines`: split on `\n`, no final empty line for a trailing
newline, and one trailing `\r` is stripped from each line. -/
def rustLines (s : String) : List String :=
  let parts := splitChars '\n' s.data
  let parts := if parts.getLast? = some [] then parts.dropLast else parts
  parts.map fun cs =>
    String.mk (if cs.getLast? = some '\r' then cs.dropLast else cs)

/-- Rust `str::parse::<u32>()`: optional leading `+`, then one or more ASCII
digits, value within `u32` range; anything else is an error (`none`). -/
def parseU32 (s : String) : Option Nat :=
  let t := match s.data with
    | '+' :: rest => rest
    | cs => cs
  if t ≠ [] ∧ t.all Char.isDigit then
    let n := t.foldl (fun acc c => acc * 10 + (c.toNat - 48)) 0
    if n < 2 ^ 32 then some n else none
  else none

/- ## HelperProtocol: `parse_helper_line` (agent.rs 418-432) -/

/-- Parsed message from the privileged helper, one per output line
(mirrors `enum HelperMessage` in agent.rs). -/
inductive HelperMessage where
  | PromptEchoOff (s : String)
  | TextInfo (s : String)
  | TextError (s : String)
  | Success
  | Failure
  | Unknown (s : String)
deriving DecidableEq, Repr

/-- `parse_helper_line` from agent.rs: `strip_prefix` chain with trimmed
remainders, then exact matches, else `Unknown`. -/
def parse_helper_line (line : String) : HelperMessage :=
  if strStartsWith line "PAM_PROMPT_ECHO_OFF" then
    .PromptEchoOff (strTrim (strDropPrefix line "PAM_PROMPT_ECHO_OFF"))
  else if strStartsWith line "PAM_TEXT_INFO" then
    .TextInfo (strTrim (strDropPrefix line "PAM_TEXT_INFO"))
  else if strStartsWith line "PAM_TEXT_ERROR" then
    .TextError (strTrim (strDropPrefix line "PAM_TEXT_ERROR"))
  else if line = "SUCCESS" then .Success
  else if line = "FAILURE" then .Failure
  else .Unknown line

/- ## IdentityResolver: `parse_username_from_passwd` (agent.rs 393-405) -/

/-- Loop body of `parse_username_from_passwd`: scan records in order; a record
with at least 3 colon-separated fields, a non-empty first field and a third
field parsing (as `u32`) to `uid` returns its first field; all other records
are skipped. -/
def passwd_lookup (uid : Nat) : List String → Option String
  | [] => none
  | line :: rest =>
    let fields := splitFields ':' line
    if 3 ≤ fields.length ∧ fields.headD "" ≠ "" then
      match parseU32 (fields.getD 2 "") with
      | some entry_uid =>
        if entry_uid = uid then some (fields.headD "") else passwd_lookup uid rest
      | none => passwd_lookup uid rest
    else passwd_lookup uid rest

/-- `parse_username_from_passwd` from agent.rs: first qualifying record's
login name, or `none`. -/
def parse_username_from_passwd (passwd_content : String) (uid : Nat) : Option String :=
  passwd_lookup uid (rustLines passwd_content)

/-- A record line qualifies for `uid`: at least 3 fields, non-empty login,
third field parses to `uid`. -/
def passwd_line_matches (uid : Nat) (line : String) : Bool :=
  let fields := splitFields ':' line
  decide (3 ≤ fields.length) && !(fields.headD "" == "") &&
    (parseU32 (fields.getD 2 "") == some uid)

lemma passwd_line_matches_iff (uid : Nat) (line : String) :
    passwd_line_matches uid line = true ↔
      3 ≤ (splitFields ':' line).length ∧ (splitFields ':' line).headD "" ≠ "" ∧
        parseU32 ((splitFields ':' line).getD 2 "") = some uid := by
  simp [passwd_line_matches, and_assoc]

lemma passwd_lookup_eq_find (uid : Nat) (lines : List String) :
    passwd_lookup uid lines =
      (lines.find? (passwd_line_matches uid)).map fun l => (splitFields ':' l).headD "" := by
  induction lines with
  | nil => rfl
  | cons line rest ih =>
    by_cases hm : passwd_line_matches uid line = true
    · obtain ⟨h1, h2, h3⟩ := (passwd_line_matches_iff uid line).mp hm
      rw [List.find?_cons_of_pos _ hm, passwd_lookup, if_pos ⟨h1, h2⟩, h3]
      simp
    · have hm' : passwd_line_matches uid line = false := by
        simpa using hm
      rw [List.find?_cons_of_neg _ (by simp [hm']), passwd_lookup, ← ih]
      by_cases h₁ : 3 ≤ (splitFields ':' line).length ∧ (splitFields ':' line).headD "" ≠ ""
      · rw [if_pos h₁]
        cases hp : parseU32 ((splitFields ':' line).getD 2 "") with
        | none => rfl
        | some entry_uid =>
          have hne : entry_uid ≠ uid := by
            intro heq
            have : passwd_line_matches uid line = true :=
              (passwd_line_matches_iff uid line).mpr ⟨h₁.1, h₁.2, by rw [hp, heq]⟩
            exact hm this
          simp only [if_neg hne]
      · rw [if_neg h₁]

/-- Claim C6: for every identity-table content and every uid,
`parse_username_from_passwd` returns the first field of the first line having
at least 3 colon-separated fields, a non-empty first field and a third field
parsing to `uid`; it returns `none` when no line qualifies, and malformed
lines (too few fields, empty login, non-numeric third field) are skipped
without affecting which correct record is returned — all captured by the
first-match characterisation below. -/
theorem claim_C6_resolve_first_match (content : String) (uid : Nat) :
    parse_username_from_passwd content uid =
      ((rustLines content).find? (passwd_line_matches uid)).map
        fun l => (splitFields ':' l).headD "" :=
  passwd_lookup_eq_find uid (rustLines content)

/-- Claim C5: `parse_helper_line` is total and deterministic (it is a Lean
function), matching case-sensitively in the precedence order
`PAM_PROMPT_ECHO_OFF` prefix, `PAM_TEXT_INFO` prefix, `PAM_TEXT_ERROR`
prefix, exact `SUCCESS`, exact `FAILURE`, otherwise `Unknown(raw)`, with the
remainder of a matched prefix trimmed; in particular
`parse_helper_line "PAM_PROMPT_ECHO_OFF Password:" = PromptEchoOff "Password:"`
and `parse_helper_line "SUCCESS" = Success`. -/
theorem claim_C5_parse_line_total :
    (∀ l : String, strStartsWith l "PAM_PROMPT_ECHO_OFF" = true →
      parse_helper_line l = .PromptEchoOff (strTrim (strDropPrefix l "PAM_PROMPT_ECHO_OFF"))) ∧
    (∀ l : String, strStartsWith l "PAM_PROMPT_ECHO_OFF" = false →
      strStartsWith l "PAM_TEXT_INFO" = true →
      parse_helper_line l = .TextInfo (strTrim (strDropPrefix l "PAM_TEXT_INFO"))) ∧
    (∀ l : String, strStartsWith l "PAM_PROMPT_ECHO_OFF" = false →
      strStartsWith l "PAM_TEXT_INFO" = false →
      strStartsWith l "PAM_TEXT_ERROR" = true →
      parse_helper_line l = .TextError (strTrim (strDropPrefix l "PAM_TEXT_ERROR"))) ∧
    (parse_helper_line "SUCCESS" = .Success) ∧
    (parse_helper_line "FAILURE" = .Failure) ∧
    (∀ l : String, strStartsWith l "PAM_PROMPT_ECHO_OFF" = false →
      strStartsWith l "PAM_TEXT_INFO" = false →
      strStartsWith l "PAM_TEXT_ERROR" = false →
      l ≠ "SUCCESS" → l ≠ "FAILURE" → parse_helper_line l = .Unknown l) ∧
    (parse_helper_line "PAM_PROMPT_ECHO_OFF Password:" = .PromptEchoOff "Password:") := by
  refine ⟨?_, ?_, ?_, by decide, by decide, ?_, by decide⟩
  · intro l h1
    simp [parse_helper_line, h1]
  · intro l h1 h2
    simp [parse_helper_line, h1, h2]
  · intro l h1 h2 h3
    simp [parse_helper_line, h1, h2, h3]
  · intro l h1 h2 h3 h4 h5
    simp [parse_helper_line, h1, h2, h3, h4, h5]

/-- Witness for C5: the `PAM_TEXT_INFO` clause applied at a concrete line. -/
theorem claim_C5_witness :
    parse_helper_line "PAM_TEXT_INFO  reader ready " =
      .TextInfo (strTrim (strDropPrefix "PAM_TEXT_INFO  reader ready " "PAM_TEXT_INFO")) :=
  claim_C5_parse_line_total.2.1 "PAM_TEXT_INFO  reader ready " (by decide) (by decide)

/- ## AuthorityClient (authority.rs) -/

/-- Process environment as seen by authority.rs: the two variables it reads. -/
structure Env where
  xdg_session_id : Option String
  lang : Option String
deriving DecidableEq

/-- Errors produced by the authority client (`anyhow` contexts in
authority.rs, distinguished by which call failed). -/
inductive AuthorityError where
  | missingSessionContext
  | rpcFailure (call : String)
deriving DecidableEq

/-- `build_subject` from authority.rs: reads `XDG_SESSION_ID` from the
environment at call time; fails when unset, else builds the
`("unix-session", {"session-id": sid})` subject. -/
def build_subject (env : Env) : Except AuthorityError (String × List (String × String)) :=
  match env.xdg_session_id with
  | none => .error .missingSessionContext
  | some sid => .ok ("unix-session", [("session-id", sid)])

/-- `register_agent` from authority.rs: build the subject, read the locale
(`LANG`, defaulting to `en_US.UTF-8`), then make the remote registration
call, whose success is an oracle input `rpcOk`. -/
def register_agent (env : Env) (rpcOk : Bool) (object_path : String) :
    Except AuthorityError Unit :=
  match build_subject env with
  | .error e => .error e
  | .ok subject =>
    let locale := env.lang.getD "en_US.UTF-8"
    let _ := (subject, locale, object_path)
    if rpcOk then .ok () else .error (.rpcFailure "RegisterAuthenticationAgent")

/-- `unregister_agent` from authority.rs: rebuilds the subject from the
environment at call time, then makes the remote unregistration call. -/
def unregister_agent (env : Env) (rpcOk : Bool) (object_path : String) :
    Except AuthorityError Unit :=
  match build_subject env with
  | .error e => .error e
  | .ok subject =>
    let _ := (subject, object_path)
    if rpcOk then .ok () else .error (.rpcFailure "UnregisterAuthenticationAgent")

/-- Claim C10: `unregister_agent` rebuilds the Subject descriptor from the
environment at call time rather than reusing the one built at registration:
whenever `XDG_SESSION_ID` is unset at shutdown, unregistration fails with
the missing-session-context error, even though registration (under the
earlier environment) succeeded. -/
theorem claim_C10_unregister_rebuilds_subject
    (envStart envShut : Env) (rpcReg rpcUnreg : Bool) (path : String)
    (hreg : register_agent envStart rpcReg path = .ok ())
    (hunset : envShut.xdg_session_id = none) :
    unregister_agent envShut rpcUnreg path = .error .missingSessionContext := by
  have _ := hreg
  simp [unregister_agent, build_subject, hunset]

/-- Witness for C10 at a concrete pair of environments. -/
theorem claim_C10_witness :
    unregister_agent ⟨none, none⟩ true "/agent" = .error .missingSessionContext :=
  claim_C10_unregister_rebuilds_subject ⟨some "3", none⟩ ⟨none, none⟩ true true
    "/agent" rfl rfl

/- ## AgentService main loop (`run_blocking`, agent.rs 159-169) -/

/-- Error result of `run_blocking`: either the unregistration call failed at
shutdown (propagated by `?`), or `conn.process` failed. -/
inductive RunError where
  | unregister (e : AuthorityError)
  | busProcess
deriving DecidableEq

/-- Observable result of running the `run_blocking` loop over a finite
schedule of iterations. -/
inductive RunOutcome where
  | running
  | finished (r : Except RunError Unit)

/-- The `loop` of `run_blocking`: each iteration first polls the shutdown
channel (`try_recv`); if a shutdown is pending it calls `unregister_agent`
with `?` — an `Err` there is returned from `run_blocking` — and otherwise
returns `Ok(())`; if no shutdown is pending it runs `conn.process` (success
per iteration given by the oracle) and loops.  Iteration `i` of the schedule
supplies (shutdown pending, `conn.process` succeeded). -/
def run_blocking_loop (unregResult : Except AuthorityError Unit) :
    List (Bool × Bool) → RunOutcome
  | [] => .running
  | (shutdownPending, processOk) :: rest =>
    if shutdownPending then
      match unregResult with
      | .ok () => .finished (.ok ())
      | .error e => .finished (.error (.unregister e))
    else if processOk then run_blocking_loop unregResult rest
    else .finished (.error .busProcess)

/-- Counterexample to claim C3 as stated: with `XDG_SESSION_ID` set but the
remote unregistration call failing, the shutdown iteration makes
`run_blocking` return the unregistration error (the `?` on
`unregister_agent` propagates it) — it does not log and exit normally. -/
theorem claim_C3_counterexample :
    run_blocking_loop (unregister_agent ⟨some "3", none⟩ false "/agent") [(true, true)] =
      .finished (.error (.unregister (.rpcFailure "UnregisterAuthenticationAgent"))) ∧
    run_blocking_loop (unregister_agent ⟨some "3", none⟩ false "/agent") [(true, true)] ≠
      .finished (.ok ()) := by
  constructor
  · rfl
  · have h : run_blocking_loop (unregister_agent ⟨some "3", none⟩ false "/agent")
        [(true, true)] =
        .finished (.error (.unregister (.rpcFailure "UnregisterAuthenticationAgent"))) := rfl
    rw [h]
    simp

/-- Claim C3 (amended): when the shutdown signal is received, the loop of
`run_blocking` always terminates on that iteration; if `unregister_agent`
succeeds it returns `Ok`, but if `unregister_agent` fails the error is
propagated as `run_blocking`'s own error result (the caller in main.rs then
logs it and exits with status 1) — it is not swallowed inside
`run_blocking`. -/
theorem claim_C3_shutdown_propagates_unregister_error
    (env : Env) (rpcOk : Bool) (path : String) (processOk : Bool)
    (rest : List (Bool × Bool)) :
    run_blocking_loop (unregister_agent env rpcOk path) ((true, processOk) :: rest) =
      .finished (match unregister_agent env rpcOk path with
        | .ok () => .ok ()
        | .error e => .error (.unregister e)) := by
  cases h : unregister_agent env rpcOk path with
  | ok v => cases v; simp [run_blocking_loop, h]
  | error e => simp [run_blocking_loop, h]

/-- Witness for C3's amended theorem at a concrete schedule. -/
theorem claim_C3_witness :
    run_blocking_loop (unregister_agent ⟨some "3", none⟩ true "/agent") [(true, true)] =
      .finished (.ok ()) := by
  have h := claim_C3_shutdown_propagates_unregister_error ⟨some "3", none⟩ true
    "/agent" true []
  simpa using h

/- ## HelperSession: `run_helper_session` (agent.rs 256-377) and
`kill_helper` (agent.rs 379-382) -/

/-- Terminal outcome of one helper session (mirrors `enum HelperResult`). -/
inductive HelperResult where
  | Success
  | Failure
  | UserChanged (username : String)
  | Cancelled
deriving DecidableEq, Repr

/-- The `anyhow` error paths of `run_helper_session`, one per `bail!` /
`context(..)?` site. -/
inductive SessionError where
  | spawnFailed
  | stdinUnavailable
  | stdoutUnavailable
  | cookieWriteFailed
  | readFailed (msg : String)
  | uiDisconnected
  | passwordWriteFailed
deriving DecidableEq, Repr

/-- What one `line_rx.recv_timeout(100ms)` poll can yield: a line
(`Ok(Ok(line))`), a read error (`Ok(Err(e))`), a timeout, or a disconnected
reader thread (helper closed its output). -/
inductive LineEvent where
  | line (s : String)
  | readErr (msg : String)
  | timeout
  | disconnected
deriving DecidableEq, Repr

/-- What one `password_rx.recv_timeout(100ms)` poll can yield. -/
inductive PwEvent where
  | response (password : String)
  | timeout
  | disconnected
deriving DecidableEq, Repr

/-- Oracle record for one iteration of the driver: the results the three
channel polls would deliver on this tick, plus whether a password write to
the helper's stdin (if performed this tick) succeeds.  `userChange` and
`userCancel` model `user_change_rx.try_recv()` / `user_cancel_rx.try_recv()`,
polled in that order at the top of both the outer loop and the nested
password wait loop; `lineEvent` is consulted only in the outer loop and
`pwEvent` only in the nested loop. -/
structure Tick where
  userChange : Option String
  userCancel : Bool
  lineEvent : LineEvent
  pwEvent : PwEvent
  pwWriteOk : Bool
deriving DecidableEq, Repr

/-- Which loop of `run_helper_session` the driver is in: the outer
line-reading loop, or the nested wait for a password after
`PromptEchoOff`. -/
inductive Phase where
  | reading
  | awaitingPassword
deriving DecidableEq, Repr

/-- Observable effects of a session: whether the subprocess was spawned,
whether `kill_helper` (kill + wait/reap) ran before returning, every line
written to the helper's stdin (cookie, then passwords), the number of
`PasswordNeeded` signals sent, and the PAM info/error messages forwarded to
the UI (text, `is_error`). -/
structure SessionTrace where
  spawned : Bool
  killed : Bool
  writes : List String
  passwordNeededCount : Nat
  pamMsgs : List (String × Bool)
deriving DecidableEq, Repr

/-- `kill_helper` from agent.rs: `child.kill()` then `child.wait()`,
recorded in the trace. -/
def kill_helper (tr : SessionTrace) : SessionTrace :=
  { tr with killed := true }

/-- Result of one driver iteration: return from `run_helper_session`, or
continue in some phase. -/
inductive StepOut where
  | done (r : Except SessionError HelperResult) (tr : SessionTrace)
  | next (ph : Phase) (tr : SessionTrace)

/-- One iteration of the driver of `run_helper_session` (agent.rs 291-376):
check `user_change_rx.try_recv()`, then `user_cancel_rx.try_recv()` — both
kill the helper and return; then, in the outer loop, poll `line_rx` and
dispatch on `parse_helper_line` (`PromptEchoOff` signals `PasswordNeeded`
and enters the nested loop; info/error lines are forwarded best-effort;
`SUCCESS`/`FAILURE` lines return without killing; unknown lines are
ignored; a read error or a disconnect kills first), or, in the nested loop,
poll `password_rx` (a response is written to stdin and resumes the outer
loop, a write failure returns without killing, a disconnect kills and
fails). -/
def session_step (ph : Phase) (tr : SessionTrace) (t : Tick) : StepOut :=
  match t.userChange with
  | some u => .done (.ok (.UserChanged u)) (kill_helper tr)
  | none =>
    if t.userCancel then .done (.ok .Cancelled) (kill_helper tr)
    else
      match ph with
      | .reading =>
        match t.lineEvent with
        | .line s =>
          match parse_helper_line s with
          | .PromptEchoOff _ =>
            .next .awaitingPassword
              { tr with passwordNeededCount := tr.passwordNeededCount + 1 }
          | .TextInfo text => .next .reading { tr with pamMsgs := tr.pamMsgs ++ [(text, false)] }
          | .TextError text => .next .reading { tr with pamMsgs := tr.pamMsgs ++ [(text, true)] }
          | .Success => .done (.ok .Success) tr
          | .Failure => .done (.ok .Failure) tr
          | .Unknown _ => .next .reading tr
        | .readErr m => .done (.error (.readFailed m)) (kill_helper tr)
        | .timeout => .next .reading tr
        | .disconnected => .done (.ok .Failure) (kill_helper tr)
      | .awaitingPassword =>
        match t.pwEvent with
        | .response password =>
          if t.pwWriteOk then .next .reading { tr with writes := tr.writes ++ [password] }
          else .done (.error .passwordWriteFailed) tr
        | .timeout => .next .awaitingPassword tr
        | .disconnected => .done (.error .uiDisconnected) (kill_helper tr)

/-- Run the driver over a finite schedule of ticks; `none` means the
schedule was exhausted with the session still running. -/
def run_session : List Tick → Phase → SessionTrace →
    Option (Except SessionError HelperResult × SessionTrace)
  | [], _, _ => none
  | t :: rest, ph, tr =>
    match session_step ph tr t with
    | .done r tr' => some (r, tr')
    | .next ph' tr' => run_session rest ph' tr'

/-- `run_helper_session` from agent.rs: spawn the helper (`spawnOk`), take
its stdin/stdout handles, write the cookie — each failing step returns the
matching error via `?` without any kill — then run the driver loop.
`username` is the helper's sole argument and does not influence the modelled
protocol. -/
def run_helper_session (username cookie : String)
    (spawnOk stdinOk stdoutOk cookieWriteOk : Bool) (ticks : List Tick) :
    Option (Except SessionError HelperResult × SessionTrace) :=
  let _ := username
  if ¬spawnOk then some (.error .spawnFailed, ⟨false, false, [], 0, []⟩)
  else if ¬stdinOk then some (.error .stdinUnavailable, ⟨true, false, [], 0, []⟩)
  else if ¬stdoutOk then some (.error .stdoutUnavailable, ⟨true, false, [], 0, []⟩)
  else if ¬cookieWriteOk then some (.error .cookieWriteFailed, ⟨true, false, [], 0, []⟩)
  else run_session ticks .reading ⟨true, false, [cookie], 0, []⟩

/-- Classification of session returns by whether `kill_helper` ran first:
`some true` for paths that kill (identity switch, user cancel, read error,
closed output stream, UI disconnect), `some false` for paths that return
without killing (a `SUCCESS` line, and the spawn/stdio/cookie/password
write failures), and `none` for `Ok(Failure)`, which arises both from a
`FAILURE` protocol line (no kill) and from a closed output stream
(killed). -/
def killed_on_return : Except SessionError HelperResult → Option Bool
  | .ok (.UserChanged _) => some true
  | .ok .Cancelled => some true
  | .error (.readFailed _) => some true
  | .error .uiDisconnected => some true
  | .ok .Success => some false
  | .error .passwordWriteFailed => some false
  | .error .cookieWriteFailed => some false
  | .error .spawnFailed => some false
  | .error .stdinUnavailable => some false
  | .error .stdoutUnavailable => some false
  | .ok .Failure => none

lemma session_step_done_killed (ph : Phase) (tr : SessionTrace) (t : Tick)
    (hk : tr.killed = false) (r : Except SessionError HelperResult)
    (tr' : SessionTrace) (h : session_step ph tr t = .done r tr') :
    ∀ b, killed_on_return r = some b → tr'.killed = b := by
  intro b hb
  unfold session_step at h
  repeat' split at h
  all_goals try (cases h)
  all_goals simp_all [killed_on_return, kill_helper]

lemma session_step_next_killed (ph : Phase) (tr : SessionTrace) (t : Tick)
    (hk : tr.killed = false) (ph' : Phase) (tr' : SessionTrace)
    (h : session_step ph tr t = .next ph' tr') : tr'.killed = false := by
  unfold session_step at h
  repeat' split at h
  all_goals try (cases h)
  all_goals simp_all [kill_helper]

lemma run_session_killed (ticks : List Tick) :
    ∀ (ph : Phase) (tr : SessionTrace) (r : Except SessionError HelperResult)
      (tr' : SessionTrace), tr.killed = false →
      run_session ticks ph tr = some (r, tr') →
      ∀ b, killed_on_return r = some b → tr'.killed = b := by
  induction ticks with
  | nil =>
    intro ph tr r tr' _ hrun
    simp [run_session] at hrun
  | cons t rest ih =>
    intro ph tr r tr' hk hrun b hb
    rw [run_session] at hrun
    cases hstep : session_step ph tr t with
    | done r0 tr0 =>
      rw [hstep] at hrun
      simp only [Option.some.injEq, Prod.mk.injEq] at hrun
      obtain ⟨rfl, rfl⟩ := hrun
      exact session_step_done_killed ph tr t hk _ _ hstep b hb
    | next ph' tr0 =>
      rw [hstep] at hrun
      exact ih ph' tr0 r tr' (session_step_next_killed ph tr t hk ph' tr0 hstep) hrun b hb

/-- Counterexample to claim C1 as stated: a session whose helper emits the
`SUCCESS` line returns `Ok(Success)` with the subprocess spawned and
`kill_helper` never called — the Success return path does not kill and reap
the subprocess. -/
theorem claim_C1_counterexample :
    run_helper_session "alice" "cookie" true true true true
        [⟨none, false, .line "SUCCESS", .timeout, true⟩] =
      some (.ok .Success, ⟨true, false, ["cookie"], 0, []⟩) ∧
    (⟨true, false, ["cookie"], 0, []⟩ : SessionTrace).spawned = true ∧
    (⟨true, false, ["cookie"], 0, []⟩ : SessionTrace).killed = false :=
  ⟨rfl, rfl, rfl⟩

/-- Claim C1 (amended): the identity-switch, user-cancel, read-error,
closed-output and UI-disconnect return paths of `run_helper_session` call
`kill_helper` (kill + reap) before returning, but the `SUCCESS`-line return
path and the spawn/stdio/cookie/password write-failure paths return without
killing, and `Ok(Failure)` is returned killed from the closed-output path
yet unkilled from the `FAILURE`-line path — so not every return path first
kills and reaps the subprocess. -/
theorem claim_C1_kill_on_return_paths :
    (∀ (username cookie : String) (spawnOk stdinOk stdoutOk cookieWriteOk : Bool)
      (ticks : List Tick) (r : Except SessionError HelperResult) (tr : SessionTrace),
      run_helper_session username cookie spawnOk stdinOk stdoutOk cookieWriteOk ticks
        = some (r, tr) →
      ∀ b, killed_on_return r = some b → tr.killed = b) ∧
    run_helper_session "u" "c" true true true true
        [⟨none, false, .disconnected, .timeout, true⟩] =
      some (.ok .Failure, ⟨true, true, ["c"], 0, []⟩) ∧
    run_helper_session "u" "c" true true true true
        [⟨none, false, .line "FAILURE", .timeout, true⟩] =
      some (.ok .Failure, ⟨true, false, ["c"], 0, []⟩) := by
  refine ⟨?_, rfl, rfl⟩
  intro username cookie spawnOk stdinOk stdoutOk cookieWriteOk ticks r tr h b hb
  unfold run_helper_session at h
  split at h
  · simp only [Option.some.injEq, Prod.mk.injEq] at h
    obtain ⟨rfl, rfl⟩ := h
    simp [killed_on_return] at hb
    simp [hb]
  · split at h
    · simp only [Option.some.injEq, Prod.mk.injEq] at h
      obtain ⟨rfl, rfl⟩ := h
      simp [killed_on_return] at hb
      simp [hb]
    · split at h
      · simp only [Option.some.injEq, Prod.mk.injEq] at h
        obtain ⟨rfl, rfl⟩ := h
        simp [killed_on_return] at hb
        simp [hb]
      · split at h
        · simp only [Option.some.injEq, Prod.mk.injEq] at h
          obtain ⟨rfl, rfl⟩ := h
          simp [killed_on_return] at hb
          simp [hb]
        · exact run_session_killed ticks .reading ⟨true, false, [cookie], 0, []⟩ r tr rfl h b hb

/-- Witness for C1's amended theorem: an identity-switch return at a
concrete schedule is killed. -/
theorem claim_C1_witness :
    SessionTrace.killed ⟨true, true, ["c"], 0, []⟩ = true :=
  claim_C1_kill_on_return_paths.1 "u" "c" true true true true
    [⟨some "bob", false, .timeout, .timeout, true⟩] (.ok (.UserChanged "bob"))
    ⟨true, true, ["c"], 0, []⟩ rfl true rfl

/-- Claim C7: if an identity-switch signal is pending while the session is
in the nested wait loop for a secret answer (phase `awaitingPassword`), the
very next driver tick — i.e. within one polling interval — returns
`UserChanged`, with `kill_helper` executed and the write log unchanged (no
password is written to the subprocess input). -/
theorem claim_C7_switch_during_password_wait
    (t : Tick) (rest : List Tick) (tr : SessionTrace) (u : String)
    (hpending : t.userChange = some u) :
    run_session (t :: rest) .awaitingPassword tr =
      some (.ok (.UserChanged u), kill_helper tr) ∧
    (kill_helper tr).killed = true ∧ (kill_helper tr).writes = tr.writes := by
  refine ⟨?_, rfl, rfl⟩
  rw [run_session]
  rcases t with ⟨uc, ucl, le, pe, pwk⟩
  simp only at hpending
  subst hpending
  rfl

/-- Witness for C7 at a concrete pending-switch schedule. -/
theorem claim_C7_witness :
    run_session [⟨some "bob", false, .timeout, .timeout, true⟩] .awaitingPassword
        ⟨true, false, ["c"], 1, []⟩ =
      some (.ok (.UserChanged "bob"), kill_helper ⟨true, false, ["c"], 1, []⟩) :=
  (claim_C7_switch_during_password_wait ⟨some "bob", false, .timeout, .timeout, true⟩ []
    ⟨true, false, ["c"], 1, []⟩ "bob" rfl).1

/- ## AuthenticationSession: `handle_begin_authentication` (agent.rs 172-247)
and `uid_to_username` (agent.rs 388-391) -/

/-- `uid_to_username` from agent.rs: read `/etc/passwd` (its content, or
`none` when the read fails, is an oracle input) and look the uid up;
a read failure yields `none` via `.ok()?`. -/
def uid_to_username (passwdFile : Option String) (uid : Nat) : Option String :=
  match passwdFile with
  | none => none
  | some content => parse_username_from_passwd content uid

/-- Candidate-list construction in `handle_begin_authentication`
(agent.rs 184-193): each identity is a `(kind, details)` pair; its second
component here models `details.get("uid").and_then(|v| v.as_u64())` — `none`
when the `uid` entry is missing or not convertible to an unsigned integer.
A `unix-user` identity's uid goes through the Rust `as u32` truncating cast
(`% 2^32`) and is resolved with `uid_to_username`; every failure silently
drops the identity (`filter_map`). -/
def extract_users (passwdFile : Option String)
    (identities : List (String × Option Nat)) : List String :=
  identities.filterMap fun id =>
    if id.1 ≠ "unix-user" then none
    else
      match id.2 with
      | none => none
      | some v => uid_to_username passwdFile (v % 2 ^ 32)

/-- The error values `handle_begin_authentication` can produce (`bail!` and
`context(..)?` sites, plus a propagated helper-session error). -/
inductive AuthError where
  | noValidUsers
  | uiSendFailed
  | authenticationFailed
  | cancelledByUser
  | helperSession (e : SessionError)
deriving DecidableEq, Repr

/-- Observable sends of one `handle_begin_authentication` call:
the `AuthRequest{message, users}` sent to the UI (if any), every
`AuthComplete{success}` sent (in order), and the users for which a helper
session was started (in order). -/
structure BeginOutputs where
  requestSent : Option (String × List String)
  authComplete : List Bool
  invoked : List String
deriving DecidableEq, Repr

/-- The `loop` of `handle_begin_authentication` (agent.rs 212-246): run a
fresh helper session for `current` (each invocation's result is the next
oracle entry); `Success` sends `AuthComplete{true}` and returns `Ok`;
`Failure` sends `AuthComplete{false}` and fails; `UserChanged(new)` sets
`current = new` and loops — nothing except `current` carries across;
`Cancelled` fails without any UI signal; a session `Err` propagates via `?`
without any UI signal.  Returns the outcome together with the invoked users
and the `AuthComplete` sends; `none` when the oracle ran out with the loop
still running. -/
def auth_loop (current : String) :
    List (Except SessionError HelperResult) →
    Option (Except AuthError Unit × List String × List Bool)
  | [] => none
  | r :: rest =>
    match r with
    | .error e => some (.error (.helperSession e), [current], [])
    | .ok .Success => some (.ok (), [current], [true])
    | .ok .Failure => some (.error .authenticationFailed, [current], [false])
    | .ok .Cancelled => some (.error .cancelledByUser, [current], [])
    | .ok (.UserChanged new_user) =>
      match auth_loop new_user rest with
      | none => none
      | some (out, invoked, acs) => some (out, current :: invoked, acs)

/-- `handle_begin_authentication` after the candidate list `users` has been
computed (agent.rs 195-246): bail with the no-valid-users error when `users`
is empty (sending nothing), otherwise send `AuthRequest{message, users}` to
the UI (`requestSendOk` is the send's success; a failure bails), then start
the helper loop at `users[0]`. -/
def begin_with_users (message : String) (users : List String)
    (requestSendOk : Bool) (helperResults : List (Except SessionError HelperResult)) :
    Option (Except AuthError Unit × BeginOutputs) :=
  if users.isEmpty then some (.error .noValidUsers, ⟨none, [], []⟩)
  else if ¬requestSendOk then some (.error .uiSendFailed, ⟨none, [], []⟩)
  else
    match auth_loop (users.headD "") helperResults with
    | none => none
    | some (out, invoked, acs) => some (out, ⟨some (message, users), acs, invoked⟩)

/-- `handle_begin_authentication` from agent.rs, from the parsed method
arguments on: extract the candidate users from the identities, then run the
session loop. -/
def handle_begin_authentication (message : String) (passwdFile : Option String)
    (identities : List (String × Option Nat)) (requestSendOk : Bool)
    (helperResults : List (Except SessionError HelperResult)) :
    Option (Except AuthError Unit × BeginOutputs) :=
  begin_with_users message (extract_users passwdFile identities) requestSendOk helperResults

lemma auth_loop_sends (results : List (Except SessionError HelperResult)) :
    ∀ (current : String) (out : Except AuthError Unit) (invoked : List String)
      (acs : List Bool), auth_loop current results = some (out, invoked, acs) →
      (out = .ok () → acs = [true]) ∧
      (out = .error .authenticationFailed → acs = [false]) ∧
      (out = .error .cancelledByUser → acs = []) ∧
      (∀ e, out = .error (.helperSession e) → acs = []) ∧
      out ≠ .error .noValidUsers ∧ out ≠ .error .uiSendFailed := by
  induction results with
  | nil =>
    intro current out invoked acs h
    simp [auth_loop] at h
  | cons r rest ih =>
    intro current out invoked acs h
    cases r with
    | error e =>
      simp only [auth_loop, Option.some.injEq, Prod.mk.injEq] at h
      obtain ⟨rfl, rfl, rfl⟩ := h
      refine ⟨by simp, by simp, by simp, ?_, by simp, by simp⟩
      intro e' he'
      rfl
    | ok hr =>
      cases hr with
      | Success =>
        simp only [auth_loop, Option.some.injEq, Prod.mk.injEq] at h
        obtain ⟨rfl, rfl, rfl⟩ := h
        exact ⟨fun _ => rfl, by simp, by simp, by simp, by simp, by simp⟩
      | Failure =>
        simp only [auth_loop, Option.some.injEq, Prod.mk.injEq] at h
        obtain ⟨rfl, rfl, rfl⟩ := h
        exact ⟨by simp, fun _ => rfl, by simp, by simp, by simp, by simp⟩
      | Cancelled =>
        simp only [auth_loop, Option.some.injEq, Prod.mk.injEq] at h
        obtain ⟨rfl, rfl, rfl⟩ := h
        exact ⟨by simp, by simp, fun _ => rfl, by simp, by simp, by simp⟩
      | UserChanged new_user =>
        rw [auth_loop] at h
        cases hrec : auth_loop new_user rest with
        | none =>
          rw [hrec] at h
          cases h
        | some p =>
          obtain ⟨out0, inv0, acs0⟩ := p
          rw [hrec] at h
          simp only [Option.some.injEq, Prod.mk.injEq] at h
          obtain ⟨rfl, rfl, rfl⟩ := h
          exact ih new_user _ _ _ hrec

/-- Counterexample to claim C2 as stated: a session ending in `Cancelled`
produces the method-call error with no `AuthComplete` signal at all (and
`handle_begin_authentication` has no cancel-acknowledgment channel), so the
presentation layer receives neither `AuthComplete{success=false}` nor a
cancel acknowledgment on this non-success path. -/
theorem claim_C2_counterexample :
    begin_with_users "msg" ["alice"] true [.ok .Cancelled] =
      some (.error .cancelledByUser, ⟨some ("msg", ["alice"]), [], ["alice"]⟩) ∧
    (⟨some ("msg", ["alice"]), [], ["alice"]⟩ : BeginOutputs).authComplete = [] :=
  ⟨rfl, rfl⟩

/-- Claim C2 (amended): `handle_begin_authentication` sends
`AuthComplete{success=true}` exactly on the `Ok` outcome and
`AuthComplete{success=false}` exactly on the `AuthenticationFailed` outcome;
the `Cancelled` and every helper-session error outcome produce the
method-call error with no `AuthComplete` signal and no cancel
acknowledgment — only the Failure path notifies the presentation layer of a
non-success terminal outcome. -/
theorem claim_C2_authcomplete_per_outcome (message : String) (users : List String)
    (requestSendOk : Bool) (helperResults : List (Except SessionError HelperResult))
    (out : Except AuthError Unit) (o : BeginOutputs)
    (h : begin_with_users message users requestSendOk helperResults = some (out, o)) :
    (out = .ok () → o.authComplete = [true]) ∧
    (out = .error .authenticationFailed → o.authComplete = [false]) ∧
    (out = .error .cancelledByUser → o.authComplete = []) ∧
    (∀ e, out = .error (.helperSession e) → o.authComplete = []) := by
  unfold begin_with_users at h
  split at h
  · simp only [Option.some.injEq, Prod.mk.injEq] at h
    obtain ⟨rfl, rfl⟩ := h
    exact ⟨by simp, by simp, by simp, by simp⟩
  · split at h
    · simp only [Option.some.injEq, Prod.mk.injEq] at h
      obtain ⟨rfl, rfl⟩ := h
      exact ⟨by simp, by simp, by simp, by simp⟩
    · cases hrec : auth_loop (users.headD "") helperResults with
      | none =>
        rw [hrec] at h
        cases h
      | some p =>
        obtain ⟨out0, inv0, acs0⟩ := p
        rw [hrec] at h
        simp only [Option.some.injEq, Prod.mk.injEq] at h
        obtain ⟨rfl, rfl⟩ := h
        obtain ⟨h1, h2, h3, h4, _, _⟩ := auth_loop_sends helperResults _ _ _ _ hrec
        exact ⟨h1, h2, h3, h4⟩

/-- Witness for C2's amended theorem: the Failure outcome at a concrete run
sends exactly `AuthComplete{success=false}`. -/
theorem claim_C2_witness :
    BeginOutputs.authComplete ⟨some ("m", ["u"]), [false], ["u"]⟩ = [false] :=
  (claim_C2_authcomplete_per_outcome "m" ["u"] true [.ok .Failure]
    (.error .authenticationFailed) ⟨some ("m", ["u"]), [false], ["u"]⟩ rfl).2.1 rfl

/-- Claim C4: for a candidate list `[a, b]` where the first helper session
returns `UserChanged b` and the second returns `Success`, `begin` returns
`Ok`, exactly two helper sessions are invoked, in order `a` then `b`, and
(per `auth_loop`, whose only loop-carried argument is the current login)
nothing besides the current login carries across the switch; the
presentation layer is notified with the full request and a single
`AuthComplete{success=true}`. -/
theorem claim_C4_switch_then_success (a b message : String) :
    begin_with_users message [a, b] true [.ok (.UserChanged b), .ok .Success] =
      some (.ok (), ⟨some (message, [a, b]), [true], [a, b]⟩) := rfl

/-- Claim C8: `begin` with an empty resolved candidate list fails with the
no-valid-identities error (a value of the error type, not a crash) and
sends nothing to the presentation layer — no `AuthRequest`, no
`AuthComplete`, and no helper invocation. -/
theorem claim_C8_empty_candidates (message : String) (passwdFile : Option String)
    (identities : List (String × Option Nat)) (requestSendOk : Bool)
    (helperResults : List (Except SessionError HelperResult))
    (hempty : extract_users passwdFile identities = []) :
    handle_begin_authentication message passwdFile identities requestSendOk
        helperResults = some (.error .noValidUsers, ⟨none, [], []⟩) := by
  simp [handle_begin_authentication, begin_with_users, hempty]

/-- Witness for C8: a request whose identities resolve to nothing. -/
theorem claim_C8_witness :
    handle_begin_authentication "msg" none [("unix-group", some 0), ("unix-user", none)]
        true [] = some (.error .noValidUsers, ⟨none, [], []⟩) :=
  claim_C8_empty_candidates "msg" none [("unix-group", some 0), ("unix-user", none)]
    true [] rfl

/-- Claim C9: candidate-list construction is total over malformed
identities: an identity whose kind is not `unix-user`, or whose details
lack a `uid` entry convertible to an unsigned integer, or whose uid does
not resolve to a login, is silently excluded; when the identity table
cannot be read at all, every identity is excluded; and the
no-valid-identities error is raised exactly when the resulting candidate
list is empty. -/
theorem claim_C9_malformed_identities_excluded :
    (∀ (passwdFile : Option String) (kind : String) (uidEntry : Option Nat)
      (rest : List (String × Option Nat)),
      (kind ≠ "unix-user" ∨ uidEntry = none ∨
        (∀ v, uidEntry = some v → uid_to_username passwdFile (v % 2 ^ 32) = none)) →
      extract_users passwdFile ((kind, uidEntry) :: rest) =
        extract_users passwdFile rest) ∧
    (∀ identities, extract_users none identities = []) ∧
    (∀ (message : String) (passwdFile : Option String)
      (identities : List (String × Option Nat)) (requestSendOk : Bool)
      (helperResults : List (Except SessionError HelperResult))
      (out : Except AuthError Unit) (o : BeginOutputs),
      handle_begin_authentication message passwdFile identities requestSendOk
          helperResults = some (out, o) →
      (out = .error .noValidUsers ↔ extract_users passwdFile identities = [])) := by
  have hdrop : ∀ (passwdFile : Option String) (kind : String) (uidEntry : Option Nat)
      (rest : List (String × Option Nat)),
      (kind ≠ "unix-user" ∨ uidEntry = none ∨
        (∀ v, uidEntry = some v → uid_to_username passwdFile (v % 2 ^ 32) = none)) →
      extract_users passwdFile ((kind, uidEntry) :: rest) =
        extract_users passwdFile rest := by
    intro passwdFile kind uidEntry rest hmal
    unfold extract_users
    rw [List.filterMap_cons]
    rcases hmal with hk | hu | hres
    · simp [hk]
    · subst hu
      by_cases hk : kind ≠ "unix-user" <;> simp [hk]
    · cases uidEntry with
      | none => by_cases hk : kind ≠ "unix-user" <;> simp [hk]
      | some v =>
        by_cases hk : kind ≠ "unix-user"
        · simp [hk]
        · have hres' : uid_to_username passwdFile (v % 4294967296) = none := hres v rfl
          simp [hk, hres']
  refine ⟨hdrop, ?_, ?_⟩
  · intro identities
    induction identities with
    | nil => rfl
    | cons x rest ih =>
      obtain ⟨kind, uidEntry⟩ := x
      rw [hdrop none kind uidEntry rest (Or.inr (Or.inr (by intro v _; rfl)))]
      exact ih
  · intro message passwdFile identities requestSendOk helperResults out o h
    unfold handle_begin_authentication begin_with_users at h
    split at h
    · simp only [Option.some.injEq, Prod.mk.injEq] at h
      obtain ⟨rfl, rfl⟩ := h
      simp_all [List.isEmpty_iff]
    · split at h
      · simp only [Option.some.injEq, Prod.mk.injEq] at h
        obtain ⟨rfl, rfl⟩ := h
        constructor
        · intro hc
          cases hc
        · intro hc
          simp_all [List.isEmpty_iff]
      · cases hrec : auth_loop ((extract_users passwdFile identities).headD "")
            helperResults with
        | none =>
          rw [hrec] at h
          cases h
        | some p =>
          obtain ⟨out0, inv0, acs0⟩ := p
          rw [hrec] at h
          simp only [Option.some.injEq, Prod.mk.injEq] at h
          obtain ⟨rfl, rfl⟩ := h
          obtain ⟨_, _, _, _, hnv, _⟩ := auth_loop_sends helperResults _ _ _ _ hrec
          constructor
          · intro hc
            exact absurd hc hnv
          · intro hc
            simp_all [List.isEmpty_iff]

/-- Witness for C9: a non-`unix-user` identity is dropped from the
candidate list. -/
theorem claim_C9_witness :
    extract_users (some "root:x:0:0:r:/root:/bin/bash") [("unix-group", some 0)] =
      extract_users (some "root:x:0:0:r:/root:/bin/bash") [] :=
  claim_C9_malformed_identities_excluded.1 (some "root:x:0:0:r:/root:/bin/bash")
    "unix-group" (some 0) [] (Or.inl (by decide))
